import Mathlib

/-!
Verification of the AgentCore streaming-proxy Lambda
(src/lambda/agentcore-proxy/index.ts) against its design specification.

The handler is embedded shallowly: the outbound response stream is modelled
as the trace of events performed on it (metadata open, data writes, close),
the JavaScript runtime functions the handler calls (JSON.parse, base64
decoding, randomUUID) are explicit parameters, and thrown exceptions are
modelled with Except.  The wrapper returned by HttpResponseStream.from
writes to the same underlying channel as the raw responseStream, so writes
through either appear as the same kind of trace event; the metadata that
HttpResponseStream.from emits is a distinguished event of its own.
-/

namespace AgentCoreProxy

/-- Truthiness of a JavaScript string-or-absent value as used in the
handler's conditions: undefined, null and the empty string are falsy,
every other string is truthy. -/
def truthy : Option String → Bool
  | none => false
  | some s => s != ""

/-- A JavaScript exception value as a catch clause observes it: whether it
is an instance of Error, and its message. -/
structure JsError where
  isError : Bool
  message : String
deriving DecidableEq

/-- The structure named ClientRequest in the source (lines 25-28).  The
TypeScript interface declares prompt as required, but JSON.parse performs
no structural validation, so at runtime the field may be absent (undefined);
both fields are therefore optional in the embedding. -/
structure ClientRequest where
  prompt : Option String
  sessionId : Option String
deriving DecidableEq

/-- The fields of the inbound APIGatewayProxyEvent that the proxy reads:
the optional body, the base64 flag, and the prompt and sessionId entries of
queryStringParameters (none when the map itself is absent or lacks the
key, matching the optional chaining in the source). -/
structure APIGatewayProxyEvent where
  body : Option String
  isBase64Encoded : Bool
  queryPrompt : Option String
  querySessionId : Option String
deriving DecidableEq

/-- The behaviour of the JavaScript runtime functions the handler calls:
JSON.parse restricted to inputs whose parse either throws (error means a
SyntaxError was thrown) or yields an object, base64 decoding (which in
Node is lenient and does not throw), and the value randomUUID returns for
this request. -/
structure JsRuntime where
  jsonParse : String → Except JsError ClientRequest
  b64decode : String → String
  freshUUID : String

/-- The default prompt of line 144. -/
def defaultPrompt : String := "こんにちは、元気ですか？"

/-- Line 148, params.sessionId = params.sessionId or-else randomUUID():
the JavaScript or-else replaces both an absent and an empty sessionId with
the freshly generated identifier. -/
def assignSessionId (uuid : String) (p : ClientRequest) : ClientRequest :=
  { p with sessionId := if truthy p.sessionId then p.sessionId else some uuid }

/-- The four-way if/else chain of lines 126-145 that fills the local
params: base64 body, plain body, query parameters, default prompt.  An
error models the JSON.parse exception propagating. -/
def rawClientRequest (rt : JsRuntime) (event : APIGatewayProxyEvent) :
    Except JsError ClientRequest :=
  if event.isBase64Encoded && truthy event.body then
    rt.jsonParse (rt.b64decode (event.body.getD ""))
  else if truthy event.body then
    rt.jsonParse (event.body.getD "")
  else if truthy event.queryPrompt then
    .ok { prompt := event.queryPrompt, sessionId := event.querySessionId }
  else
    .ok { prompt := some defaultPrompt, sessionId := none }

/-- Direct embedding of parseClientRequest (lines 123-151): the four-way
if/else chain selecting the input shape, followed by the sessionId
defaulting of line 148. -/
def parseClientRequest (rt : JsRuntime) (event : APIGatewayProxyEvent) :
    Except JsError ClientRequest :=
  (rawClientRequest rt event).map (assignSessionId rt.freshUUID)

/-- JSON.stringify escaping of one character inside a string value. -/
def jsonEscapeChar (c : Char) : String :=
  if c = '"' then "\\\""
  else if c = '\\' then "\\\\"
  else if c = '\n' then "\\n"
  else if c = '\r' then "\\r"
  else if c = '\t' then "\\t"
  else if c = '\x08' then "\\b"
  else if c = '\x0c' then "\\f"
  else if c.toNat < 32 then
    "\\u00" ++ String.singleton (Nat.digitChar (c.toNat / 16)) ++
      String.singleton (Nat.digitChar (c.toNat % 16))
  else String.singleton c

/-- JSON.stringify of a string value: the escaped characters between
double quotes. -/
def jsonQuote (s : String) : String :=
  "\"" ++ String.join (s.toList.map jsonEscapeChar) ++ "\""

/-- JSON.stringify of the object built on lines 84-86: a single prompt
field; a prompt that is undefined is dropped entirely, leaving the empty
object. -/
def stringifyPromptPayload : Option String → String
  | none => "\x7b\x7d"
  | some p => "\x7b\"prompt\":" ++ jsonQuote p ++ "\x7d"

/-- The InvokeAgentRuntimeCommand built on lines 80-89, with the payload
kept as the serialized JSON text (the TextEncoder step is a faithful byte
encoding of this text). -/
structure InvokeAgentRuntimeCommand where
  agentRuntimeArn : String
  runtimeSessionId : Option String
  payload : String
  qualifier : String
deriving DecidableEq

/-- The command the handler sends for a given parsed request (lines 80-89). -/
def buildCommand (arn : String) (p : ClientRequest) : InvokeAgentRuntimeCommand :=
  { agentRuntimeArn := arn
    runtimeSessionId := p.sessionId
    payload := stringifyPromptPayload p.prompt
    qualifier := "DEFAULT" }

/-- One observable action on the outbound response channel or the backend:
the metadata record HttpResponseStream.from emits (status code and
headers), a send of an InvokeAgentRuntimeCommand to the backend, a data
write, or ending the stream. -/
inductive Ev where
  | openMeta (statusCode : Nat) (headers : List (String × String))
  | invoke (cmd : InvokeAgentRuntimeCommand)
  | write (s : String)
  | close
deriving DecidableEq

/-- Whether an event is the metadata open. -/
def Ev.isOpen : Ev → Bool
  | .openMeta _ _ => true
  | _ => false

/-- Whether an event is a backend invocation. -/
def Ev.isInvoke : Ev → Bool
  | .invoke _ => true
  | _ => false

/-- Whether an event is a data write on the channel. -/
def Ev.isWrite : Ev → Bool
  | .write _ => true
  | _ => false

/-- The response metadata of lines 65-72. -/
def sseHeaders : List (String × String) :=
  [("Content-Type", "text/event-stream"),
   ("Cache-Control", "no-cache"),
   ("X-Accel-Buffering", "no")]

/-- The backend byte stream obtained from a successful
InvokeAgentRuntimeCommand: the chunks it will emit in order, then either a
clean end (none) or an error (some e). -/
structure BackendStream where
  chunks : List String
  outcome : Option JsError
deriving DecidableEq

/-- Node stream.pipeline from the backend readable to the outbound channel
(line 99): chunks are forwarded one by one in arrival order; on clean end
of the source the destination is ended (pipeline's default end behaviour);
on a source error the promise rejects with that error after the chunks
already forwarded.  Errors the transport raises asynchronously after the
rejection are not observed by the handler, so later writes on the channel
object still appear as trace events. -/
def asyncPipeline (src : BackendStream) : Except (JsError × List Ev) (List Ev) :=
  match src.outcome with
  | none => .ok (src.chunks.map Ev.write ++ [Ev.close])
  | some e => .error (e, src.chunks.map Ev.write)

/-- The SSE record the proxy injects on failure (lines 107 and 109): a
template literal with the message inserted verbatim, no escaping. -/
def errorFrame (msg : String) : String :=
  "data: \x7b\"error\": \"" ++ msg ++ "\"\x7d\n\n"

/-- Whether the first and (if reached) second responseStream.write calls
of the catch block succeed or throw. -/
structure WriteBehavior where
  firstWriteOk : Bool
  secondWriteOk : Bool
deriving DecidableEq

/-- The model error carried by a throwing responseStream.write. -/
def streamWriteError : JsError :=
  { isError := true, message := "stream write failed" }

/-- The inner try of lines 106-110: write the generic error frame, then,
when the caught value is an instance of Error, a second frame carrying its
message; a throwing write aborts the rest of the block, and the error
value carries the events already emitted. -/
def reportFrames (e : JsError) (wb : WriteBehavior) :
    Except (JsError × List Ev) (List Ev) :=
  if wb.firstWriteOk then
    if e.isError then
      if wb.secondWriteOk then
        .ok [Ev.write (errorFrame "Internal server error"),
             Ev.write (errorFrame e.message)]
      else
        .error (streamWriteError, [Ev.write (errorFrame "Internal server error")])
    else
      .ok [Ev.write (errorFrame "Internal server error")]
  else
    .error (streamWriteError, [])

/-- The whole catch block, lines 102-116: the inner catch swallows any
stream write error and the finally clause ends the stream, so the reporter
always terminates normally and its last action is the close. -/
def reportAndClose (e : JsError) (wb : WriteBehavior) : List Ev :=
  (match reportFrames e wb with
   | .ok evs => evs
   | .error (_, evs) => evs) ++ [Ev.close]

/-- The try block of the handler (lines 59-101): parse the client request,
open the HTTP response stream with the SSE metadata, build and send the
InvokeAgentRuntimeCommand, then pipe the backend stream to the channel.
An error carries the events already emitted when the throw happened.  Note
that the metadata open happens only after parseClientRequest has
succeeded: a parse throw jumps to the catch block before
HttpResponseStream.from is reached. -/
def handlerTry (arn : String) (rt : JsRuntime)
    (send : InvokeAgentRuntimeCommand → Except JsError BackendStream)
    (event : APIGatewayProxyEvent) : Except (JsError × List Ev) (List Ev) :=
  match parseClientRequest rt event with
  | .error e => .error (e, [])
  | .ok params =>
    let opened : List Ev := [Ev.openMeta 200 sseHeaders]
    let cmd := buildCommand arn params
    match send cmd with
    | .error e => .error (e, opened ++ [Ev.invoke cmd])
    | .ok stream =>
      match asyncPipeline stream with
      | .ok evs => .ok (opened ++ [Ev.invoke cmd] ++ evs)
      | .error (e, evs) => .error (e, opened ++ [Ev.invoke cmd] ++ evs)

/-- The full handler (lines 51-118): the try block, and on any thrown
error the catch block of lines 102-116.  The function is total: no
exception escapes the handler. -/
def handler (arn : String) (rt : JsRuntime)
    (send : InvokeAgentRuntimeCommand → Except JsError BackendStream)
    (wb : WriteBehavior) (event : APIGatewayProxyEvent) : List Ev :=
  match handlerTry arn rt send event with
  | .ok evs => evs
  | .error (e, evs) => evs ++ reportAndClose e wb

/-- The configuration the module derives from the process environment. -/
structure ProxyConfig where
  agentCoreArn : String
  region : String
deriving DecidableEq

/-- The region default of line 21: AWS_REGION when truthy, else us-west-2. -/
def regionOf (awsRegionEnv : Option String) : String :=
  if truthy awsRegionEnv then awsRegionEnv.getD "" else "us-west-2"

/-- Module initialization (lines 10-22) as a function of the process
environment: AGENT_ARN is read and a falsy value (absent or empty) throws
at module load time, before any request is handled; AWS_REGION falls back
to a default and never fails. -/
def initModule (agentArnEnv awsRegionEnv : Option String) :
    Except JsError ProxyConfig :=
  if truthy agentArnEnv then
    .ok { agentCoreArn := agentArnEnv.getD "", region := regionOf awsRegionEnv }
  else
    .error { isError := true,
             message := "AGENT_ARN must be set in environment variables" }

/-- The opening curly brace character. -/
def lbrace : Char := '\x7b'

/-- The closing curly brace character. -/
def rbrace : Char := '\x7d'

/-- JSON insignificant whitespace. -/
def isJsonWs (c : Char) : Bool :=
  c = ' ' || c = '\t' || c = '\n' || c = '\r'

/-- Drops leading JSON whitespace. -/
def skipWs : List Char → List Char
  | [] => []
  | c :: cs => if isJsonWs c then skipWs cs else c :: cs

/-- Whether a character is a hexadecimal digit. -/
def isHexDigitChar (c : Char) : Bool :=
  c.isDigit || ('a' ≤ c && c ≤ 'f') || ('A' ≤ c && c ≤ 'F')

/-- The scanning mode inside a JSON string literal: plain characters, the
character right after a backslash, or the remaining count of a unicode
escape's hex digits. -/
inductive ScanMode where
  | plain
  | afterBackslash
  | hex (k : Nat)

/-- Scans the body of a JSON string literal from the given mode; returns
the input remaining after the closing quote, or none when the literal is
ill-formed (raw control character, bad escape, or unterminated). -/
def scanStr : ScanMode → List Char → Option (List Char)
  | _, [] => none
  | .plain, c :: cs =>
    if c = '"' then some cs
    else if c = '\\' then scanStr .afterBackslash cs
    else if c.toNat < 32 then none
    else scanStr .plain cs
  | .afterBackslash, d :: ds =>
    if d = '"' || d = '\\' || d = '/' || d = 'b' || d = 'f' ||
        d = 'n' || d = 'r' || d = 't' then
      scanStr .plain ds
    else if d = 'u' then scanStr (.hex 3) ds
    else none
  | .hex k, c :: cs =>
    if isHexDigitChar c then
      match k with
      | 0 => scanStr .plain cs
      | j + 1 => scanStr (.hex j) cs
    else none

/-- Scans the body of a JSON string literal after its opening quote. -/
def scanJsonStringBody (cs : List Char) : Option (List Char) :=
  scanStr .plain cs

/-- Recognizes the literal key of the injected frames: a string literal
spelling error. -/
def afterErrorKey : List Char → Option (List Char)
  | '"' :: 'e' :: 'r' :: 'r' :: 'o' :: 'r' :: '"' :: rest => some rest
  | _ => none

/-- Whether the characters form a well-formed JSON object consisting of
exactly one member whose key is error and whose value is a JSON string:
the shape the specification documents for the frames the proxy injects. -/
def isErrorObjectJsonChars (cs : List Char) : Bool :=
  match skipWs cs with
  | c :: cs1 =>
    if c = lbrace then
      match afterErrorKey (skipWs cs1) with
      | some rest =>
        match skipWs rest with
        | ':' :: rest2 =>
          match skipWs rest2 with
          | '"' :: rest3 =>
            match scanJsonStringBody rest3 with
            | some rest4 =>
              match skipWs rest4 with
              | c2 :: rest5 => c2 = rbrace && (skipWs rest5).isEmpty
              | [] => false
            | none => false
          | _ => false
        | _ => false
      | none => false
    else false
  | [] => false

/-- Strips the fixed SSE prefix data-colon-space. -/
def dropDataColonSpace : List Char → Option (List Char)
  | 'd' :: 'a' :: 't' :: 'a' :: ':' :: ' ' :: rest => some rest
  | _ => none

/-- The one-line payload of a self-delimited SSE record: the characters up
to the first newline, provided exactly one further newline follows and
nothing else (so the record is payload-newline-newline with a
newline-free payload). -/
def recordPayload : List Char → Option (List Char)
  | [] => none
  | c :: cs =>
    if c = '\n' then (if cs = ['\n'] then some [] else none)
    else (recordPayload cs).map (fun p => c :: p)

/-- Whether s is a single well-formed proxy error record: a self-delimited
SSE data record whose one-line payload is a well-formed one-member JSON
object with key error and a string value. -/
def isWellFormedErrorRecord (s : String) : Bool :=
  match dropDataColonSpace s.toList with
  | none => false
  | some rest =>
    match recordPayload rest with
    | none => false
    | some p => isErrorObjectJsonChars p

/-- Whether every character of a message may appear verbatim inside a JSON
string literal while keeping the record on one line: no double quote, no
backslash, no control character. -/
def jsonSafe (msg : String) : Bool :=
  msg.toList.all (fun c => c != '"' && c != '\\' && decide (32 ≤ c.toNat))

/-- The Normalizer decision table exactly as the specification describes
it, with presence of the body and of the prompt query parameter read as
JavaScript truthiness (present and non-empty): four shapes in fixed
precedence, first match wins, and a parse failure on a truthy body is
fatal with no fallback. -/
def normalizerSpec (rt : JsRuntime) (ev : APIGatewayProxyEvent) :
    Except JsError ClientRequest :=
  if truthy ev.body && ev.isBase64Encoded then
    (rt.jsonParse (rt.b64decode (ev.body.getD ""))).map (assignSessionId rt.freshUUID)
  else if truthy ev.body && !ev.isBase64Encoded then
    (rt.jsonParse (ev.body.getD "")).map (assignSessionId rt.freshUUID)
  else if truthy ev.queryPrompt then
    .ok (assignSessionId rt.freshUUID
      { prompt := ev.queryPrompt, sessionId := ev.querySessionId })
  else
    .ok (assignSessionId rt.freshUUID
      { prompt := some defaultPrompt, sessionId := none })

/-- Truthiness of a non-empty string. -/
theorem truthy_some {s : String} (h : s ≠ "") : truthy (some s) = true := by
  simp [truthy, bne_iff_ne, h]

/-- The assigned sessionId is present and non-empty whenever the generated
identifier is non-empty. -/
theorem assignSessionId_nonempty (uuid : String) (hu : uuid ≠ "")
    (q : ClientRequest) :
    ∃ s, (assignSessionId uuid q).sessionId = some s ∧ s ≠ "" := by
  unfold assignSessionId
  cases hq : q.sessionId with
  | none => exact ⟨uuid, by simp [truthy, hq], hu⟩
  | some s =>
    by_cases hs : s = ""
    · subst hs
      exact ⟨uuid, by simp [truthy, hq], hu⟩
    · exact ⟨s, by simp [truthy, hq, bne_iff_ne, hs], hs⟩

/-- Every data write the failure reporter performs carries either the
generic frame or the frame built from the caught error's message. -/
theorem reportAndClose_writes (e : JsError) (wb : WriteBehavior) :
    ∀ s, Ev.write s ∈ reportAndClose e wb →
      s = errorFrame "Internal server error" ∨ s = errorFrame e.message := by
  intro s hs
  unfold reportAndClose reportFrames at hs
  by_cases h1 : wb.firstWriteOk <;> by_cases h2 : e.isError <;>
    by_cases h3 : wb.secondWriteOk <;> simp [h1, h2, h3] at hs <;> tauto

/-- The failure reporter performs no backend invocation. -/
theorem filter_isInvoke_reportAndClose (e : JsError) (wb : WriteBehavior) :
    (reportAndClose e wb).filter Ev.isInvoke = [] := by
  unfold reportAndClose reportFrames
  by_cases h1 : wb.firstWriteOk <;> by_cases h2 : e.isError <;>
    by_cases h3 : wb.secondWriteOk <;>
    simp [h1, h2, h3, List.filter, Ev.isInvoke]

/-- Forwarded chunk writes contain no backend invocation. -/
theorem filter_isInvoke_writes (l : List String) :
    (l.map Ev.write).filter Ev.isInvoke = [] := by
  induction l with
  | nil => rfl
  | cons a as ih => simp [List.filter, Ev.isInvoke, ih]

/-- The failure reporter's last action is always the close. -/
theorem getLast?_reportAndClose (e : JsError) (wb : WriteBehavior) :
    (reportAndClose e wb).getLast? = some Ev.close := by
  unfold reportAndClose
  cases h : reportFrames e wb with
  | ok evs => simp
  | error pe => simp

/-- On a truthy, non-base64 body the parser is JSON.parse of the body
followed by the sessionId assignment. -/
theorem parse_body_direct (rt : JsRuntime) (ev : APIGatewayProxyEvent)
    (b : String) (hb : ev.body = some b) (h64 : ev.isBase64Encoded = false)
    (hne : b ≠ "") :
    parseClientRequest rt ev =
      (rt.jsonParse b).map (assignSessionId rt.freshUUID) := by
  unfold parseClientRequest rawClientRequest
  simp [hb, h64, truthy, bne_iff_ne, hne]

/-- On a truthy, base64-marked body the parser is JSON.parse of the
decoded body followed by the sessionId assignment. -/
theorem parse_body_b64 (rt : JsRuntime) (ev : APIGatewayProxyEvent)
    (b : String) (hb : ev.body = some b) (h64 : ev.isBase64Encoded = true)
    (hne : b ≠ "") :
    parseClientRequest rt ev =
      (rt.jsonParse (rt.b64decode b)).map (assignSessionId rt.freshUUID) := by
  unfold parseClientRequest rawClientRequest
  simp [hb, h64, truthy, bne_iff_ne, hne]

/-- Whenever the Normalizer succeeds, the handler sends exactly one
InvokeAgentRuntimeCommand, the one built from the parsed request. -/
theorem handler_invoke_events (arn : String) (rt : JsRuntime)
    (send : InvokeAgentRuntimeCommand → Except JsError BackendStream)
    (wb : WriteBehavior) (ev : APIGatewayProxyEvent) (p : ClientRequest)
    (hp : parseClientRequest rt ev = .ok p) :
    (handler arn rt send wb ev).filter Ev.isInvoke =
      [Ev.invoke (buildCommand arn p)] := by
  unfold handler handlerTry
  rw [hp]
  cases hs : send (buildCommand arn p) with
  | error e =>
    simp [hs, List.filter, Ev.isInvoke, filter_isInvoke_reportAndClose]
  | ok stream =>
    unfold asyncPipeline
    cases ho : stream.outcome with
    | none => simp [hs, ho, List.filter, Ev.isInvoke, filter_isInvoke_writes]
    | some e =>
      simp [hs, ho, List.filter, Ev.isInvoke, filter_isInvoke_writes,
        filter_isInvoke_reportAndClose]

/-- A string-literal body made of plain characters followed by a closing
quote scans to the remainder. -/
theorem scanJsonStringBody_safe (xs rest : List Char)
    (h : ∀ c ∈ xs, c ≠ '"' ∧ c ≠ '\\' ∧ 32 ≤ c.toNat) :
    scanJsonStringBody (xs ++ '"' :: rest) = some rest := by
  unfold scanJsonStringBody
  induction xs with
  | nil => rfl
  | cons c cs ih =>
    obtain ⟨h1, h2, h3⟩ := h c (List.mem_cons_self c cs)
    have h4 : ¬ c.toNat < 32 := by omega
    rw [List.cons_append, scanStr, if_neg h1, if_neg h2, if_neg h4]
    exact ih (fun d hd => h d (List.mem_cons_of_mem c hd))

/-- A newline-free prefix followed by the two-newline delimiter is the
payload of the record. -/
theorem recordPayload_append (xs : List Char) (h : ∀ c ∈ xs, c ≠ '\n') :
    recordPayload (xs ++ ['\n', '\n']) = some xs := by
  induction xs with
  | nil => simp [recordPayload]
  | cons c cs ih =>
    have h1 : ¬ c = '\n' := h c (List.mem_cons_self c cs)
    have h2 := ih (fun d hd => h d (List.mem_cons_of_mem c hd))
    simp only [List.cons_append, recordPayload, if_neg h1, List.append_eq, h2,
      Option.map_some']

/-- The payload the proxy builds from a plain message is a well-formed
one-member JSON object with key error. -/
theorem isErrorObjectJsonChars_frame (xs : List Char)
    (h : ∀ c ∈ xs, c ≠ '"' ∧ c ≠ '\\' ∧ 32 ≤ c.toNat) :
    isErrorObjectJsonChars
      ('\x7b' :: '"' :: 'e' :: 'r' :: 'r' :: 'o' :: 'r' :: '"' :: ':' :: ' ' ::
        '"' :: (xs ++ ['"', '\x7d'])) = true := by
  have hscan : scanJsonStringBody (xs ++ '"' :: ['\x7d']) = some ['\x7d'] :=
    scanJsonStringBody_safe xs ['\x7d'] h
  have hx : xs ++ ['"', '\x7d'] = xs ++ '"' :: ['\x7d'] := rfl
  simp +decide only [isErrorObjectJsonChars, skipWs, isJsonWs, afterErrorKey,
    lbrace, rbrace, hx, hscan, List.isEmpty_nil, Bool.and_self, if_true,
    if_false]

/-- Every message without quotes, backslashes or control characters
produces a well-formed error record. -/
theorem errorFrame_wellFormed_of_safe (msg : String) (h : jsonSafe msg = true) :
    isWellFormedErrorRecord (errorFrame msg) = true := by
  have hx : ∀ c ∈ msg.toList, c ≠ '"' ∧ c ≠ '\\' ∧ 32 ≤ c.toNat := by
    intro c hc
    have h2 := List.all_eq_true.mp h c hc
    simp only [Bool.and_eq_true, bne_iff_ne, decide_eq_true_eq] at h2
    exact ⟨h2.1.1, h2.1.2, h2.2⟩
  have hnl : ∀ c ∈ msg.toList, c ≠ '\n' := by
    intro c hc hcontra
    have h3 := (hx c hc).2.2
    rw [hcontra] at h3
    simp at h3
  have hlist : (errorFrame msg).toList =
      'd' :: 'a' :: 't' :: 'a' :: ':' :: ' ' ::
        (('\x7b' :: '"' :: 'e' :: 'r' :: 'r' :: 'o' :: 'r' :: '"' :: ':' ::
          ' ' :: '"' :: (msg.toList ++ ['"', '\x7d'])) ++ ['\n', '\n']) := by
    show (("data: \x7b\"error\": \"" ++ msg ++ "\"\x7d\n\n")).toList = _
    simp only [String.toList, String.data_append]
    simp
  have hmid : ∀ c ∈ ('\x7b' :: '"' :: 'e' :: 'r' :: 'r' :: 'o' :: 'r' :: '"' ::
      ':' :: ' ' :: '"' :: (msg.toList ++ ['"', '\x7d'])), c ≠ '\n' := by
    intro c hc
    simp only [List.mem_cons, List.mem_append, List.mem_singleton] at hc
    rcases hc with h1|h1|h1|h1|h1|h1|h1|h1|h1|h1|h1|h1 <;>
      first
        | (subst h1; decide)
        | (rcases h1 with h2|h2
           · exact hnl c h2
           · simp only [List.mem_cons, List.not_mem_nil, or_false] at h2
             rcases h2 with h3|h3 <;> (subst h3; decide))
  unfold isWellFormedErrorRecord
  rw [hlist]
  simp only [dropDataColonSpace]
  rw [recordPayload_append _ hmid]
  exact isErrorObjectJsonChars_frame msg.toList hx

/-- A concrete runtime whose JSON.parse throws on every input, exercising
the malformed-body paths. -/
def rtReject : JsRuntime :=
  { jsonParse := fun _ => .error { isError := true, message := "Unexpected token" },
    b64decode := id, freshUUID := "aaaa-bbbb" }

/-- A concrete runtime whose JSON.parse yields the empty object,
exercising bodies that are valid JSON without a prompt field. -/
def rtEmptyObj : JsRuntime :=
  { jsonParse := fun _ => .ok { prompt := none, sessionId := none },
    b64decode := id, freshUUID := "aaaa-bbbb" }

/-- A concrete runtime whose JSON.parse yields a prompt and the
caller-supplied sessionId abc. -/
def rtPromptAbc : JsRuntime :=
  { jsonParse := fun _ => .ok { prompt := some "hello", sessionId := some "abc" },
    b64decode := id, freshUUID := "aaaa-bbbb" }

/-- Catch-block writes that both succeed. -/
def wbOk : WriteBehavior := { firstWriteOk := true, secondWriteOk := true }

/-- A backend that returns an empty clean stream; used in scenarios where
the backend is never reached. -/
def sendUnused : InvokeAgentRuntimeCommand → Except JsError BackendStream :=
  fun _ => .ok { chunks := [], outcome := none }

/-- An event carrying a non-empty plain body and nothing else. -/
def evWithBody : APIGatewayProxyEvent :=
  { body := some "\x7b\x7d", isBase64Encoded := false,
    queryPrompt := none, querySessionId := none }

/-- An event with no body and no query parameters. -/
def evBare : APIGatewayProxyEvent :=
  { body := none, isBase64Encoded := false,
    queryPrompt := none, querySessionId := none }

/-- An event whose body is the unparsable text of the claim. -/
def evNotJson : APIGatewayProxyEvent :=
  { body := some "\x7bnot json", isBase64Encoded := false,
    queryPrompt := none, querySessionId := none }

/-- C1, counterexample: for the inbound body that is present but not
parseable as JSON, the handler writes its error frames to the raw stream
and closes it, but the outbound channel is never opened with the success
metadata: the trace contains no openMeta event at all, refuting the claim
that the channel is opened with the 200 / text-event-stream metadata
before reporting. -/
theorem claim_C1_counterexample :
    handler "arn:agent" rtReject sendUnused wbOk evNotJson =
      [Ev.write (errorFrame "Internal server error"),
       Ev.write (errorFrame "Unexpected token"), Ev.close]
    ∧ (handler "arn:agent" rtReject sendUnused wbOk evNotJson).all
        (fun x => !x.isOpen) = true := by
  constructor <;> decide

/-- C1 amended: for every inbound request whose body is present but not
parseable as JSON, the pipeline does not crash with an unhandled fault: it
writes at least one error frame (the generic frame first) to the outbound
channel and closes it; however, contrary to the original claim, the
channel is never opened with the success-status metadata — the catch
block writes to the raw stream and HttpResponseStream.from is never
reached on this path. -/
theorem claim_C1_amended (arn : String) (rt : JsRuntime)
    (send : InvokeAgentRuntimeCommand → Except JsError BackendStream)
    (wb : WriteBehavior) (ev : APIGatewayProxyEvent) (e : JsError)
    (hp : parseClientRequest rt ev = .error e)
    (hw : wb.firstWriteOk = true) :
    (∃ rest, handler arn rt send wb ev =
      Ev.write (errorFrame "Internal server error") :: rest ++ [Ev.close])
    ∧ (handler arn rt send wb ev).all (fun x => !x.isOpen) = true := by
  simp only [handler, handlerTry, hp, List.nil_append]
  constructor
  · unfold reportAndClose reportFrames
    by_cases h2 : e.isError
    · by_cases h3 : wb.secondWriteOk
      · exact ⟨[Ev.write (errorFrame e.message)], by simp [hw, h2, h3]⟩
      · exact ⟨[], by simp [hw, h2, h3]⟩
    · exact ⟨[], by simp [hw, h2]⟩
  · unfold reportAndClose reportFrames
    by_cases h2 : e.isError <;> by_cases h3 : wb.secondWriteOk <;>
      simp [hw, h2, h3, Ev.isOpen]

/-- C1 witness: the amended theorem applied to the concrete unparsable
body. -/
theorem claim_C1_witness :
    (∃ rest, handler "arn:agent" rtReject sendUnused wbOk evNotJson =
      Ev.write (errorFrame "Internal server error") :: rest ++ [Ev.close])
    ∧ (handler "arn:agent" rtReject sendUnused wbOk evNotJson).all
        (fun x => !x.isOpen) = true :=
  claim_C1_amended "arn:agent" rtReject sendUnused wbOk evNotJson
    { isError := true, message := "Unexpected token" } rfl rfl

/-- C2, counterexample: for a backend stream that emits the chunk A and
then errors, the channel receives A followed by TWO error frames (the
generic frame and the frame carrying the stream error's message), not
exactly one as claimed. -/
theorem claim_C2_counterexample :
    handler "arn:agent" rtEmptyObj
        (fun _ => .ok { chunks := ["A"],
                        outcome := some { isError := true, message := "boom" } })
        wbOk evBare =
      [Ev.openMeta 200 sseHeaders,
       Ev.invoke { agentRuntimeArn := "arn:agent",
                   runtimeSessionId := some "aaaa-bbbb",
                   payload := stringifyPromptPayload (some defaultPrompt),
                   qualifier := "DEFAULT" },
       Ev.write "A", Ev.write (errorFrame "Internal server error"),
       Ev.write (errorFrame "boom"), Ev.close]
    ∧ (handler "arn:agent" rtEmptyObj
        (fun _ => .ok { chunks := ["A"],
                        outcome := some { isError := true, message := "boom" } })
        wbOk evBare).filter Ev.isWrite =
      [Ev.write "A", Ev.write (errorFrame "Internal server error"),
       Ev.write (errorFrame "boom")] := by
  constructor <;> decide

/-- C2 amended: for every backend stream that errors (with an Error
instance) after emitting the chunk A, and a healthy channel, the channel
receives A, then exactly two error frames — the fixed generic frame
followed by one carrying the stream error's message — and is then closed,
with no event after the close. -/
theorem claim_C2_amended (arn : String) (rt : JsRuntime) (wb : WriteBehavior)
    (ev : APIGatewayProxyEvent) (p : ClientRequest) (m : String)
    (hp : parseClientRequest rt ev = .ok p)
    (hw1 : wb.firstWriteOk = true) (hw2 : wb.secondWriteOk = true) :
    handler arn rt
        (fun _ => .ok { chunks := ["A"],
                        outcome := some { isError := true, message := m } })
        wb ev =
      [Ev.openMeta 200 sseHeaders, Ev.invoke (buildCommand arn p),
       Ev.write "A", Ev.write (errorFrame "Internal server error"),
       Ev.write (errorFrame m), Ev.close] := by
  simp only [handler, handlerTry, hp, asyncPipeline]
  simp [reportAndClose, reportFrames, hw1, hw2]

/-- C2 witness: the amended theorem applied to the concrete scenario of
the counterexample. -/
theorem claim_C2_witness :
    handler "arn:agent" rtEmptyObj
        (fun _ => .ok { chunks := ["A"],
                        outcome := some { isError := true, message := "boom" } })
        wbOk evBare =
      [Ev.openMeta 200 sseHeaders,
       Ev.invoke (buildCommand "arn:agent"
         { prompt := some defaultPrompt, sessionId := some "aaaa-bbbb" }),
       Ev.write "A", Ev.write (errorFrame "Internal server error"),
       Ev.write (errorFrame "boom"), Ev.close] :=
  claim_C2_amended "arn:agent" rtEmptyObj wbOk evBare
    { prompt := some defaultPrompt, sessionId := some "aaaa-bbbb" } "boom"
    rfl rfl rfl

/-- C3, counterexample: when the caught error's message contains a double
quote, the proxy still injects it verbatim, and the resulting record's
payload is not well-formed JSON — refuting the claim that the payload is
well-formed JSON for every possible error message. -/
theorem claim_C3_counterexample :
    Ev.write (errorFrame "a\"b") ∈
      handler "arn:agent" rtEmptyObj
        (fun _ => .error { isError := true, message := "a\"b" }) wbOk evBare
    ∧ isWellFormedErrorRecord (errorFrame "a\"b") = false := by
  constructor <;> decide

/-- C3 amended: every error record the proxy injects is the template
data: \x7b"error": "<message>"\x7d with the message inserted verbatim and
unescaped (either the fixed generic message or the caught error's
message); the payload is well-formed JSON with an error key only for
messages containing no double quote, no backslash and no control
character, not for every possible message. -/
theorem claim_C3_amended :
    (∀ e wb s, Ev.write s ∈ reportAndClose e wb →
       s = errorFrame "Internal server error" ∨ s = errorFrame e.message)
    ∧ (∀ msg, jsonSafe msg = true →
       isWellFormedErrorRecord (errorFrame msg) = true) :=
  ⟨fun e wb => reportAndClose_writes e wb,
   fun msg h => errorFrame_wellFormed_of_safe msg h⟩

/-- C3 witness: the amended theorem applied to a concrete injected frame
and to the concrete generic message. -/
theorem claim_C3_witness :
    (errorFrame "boom" = errorFrame "Internal server error" ∨
      errorFrame "boom" = errorFrame (JsError.mk true "boom").message)
    ∧ isWellFormedErrorRecord (errorFrame "Internal server error") = true :=
  ⟨claim_C3_amended.1 { isError := true, message := "boom" } wbOk
      (errorFrame "boom") (by decide),
   claim_C3_amended.2 "Internal server error" (by decide)⟩

/-- C4, counterexample: an event whose body is present but empty is a body
that JSON.parse cannot parse, yet the Normalizer does not fail: because
the source tests JavaScript truthiness rather than presence, it falls
through to the query-parameter shape, refuting the claim that a present
but unparsable body fails without attempting lower-precedence
fallbacks. -/
theorem claim_C4_counterexample :
    rtReject.jsonParse "" =
      .error { isError := true, message := "Unexpected token" }
    ∧ parseClientRequest rtReject
        { body := some "", isBase64Encoded := false,
          queryPrompt := some "hi", querySessionId := none } =
      .ok { prompt := some "hi", sessionId := some "aaaa-bbbb" } :=
  ⟨rfl, rfl⟩

/-- C4 amended: the Normalizer equals the four-shape decision table in
fixed precedence order with first match winning, once presence of the
body and of the prompt query parameter is read as JavaScript truthiness
(present AND non-empty): an empty-string body or empty-string prompt
parameter is treated as absent; a truthy body whose parse fails is fatal
with no fallback. -/
theorem claim_C4_amended (rt : JsRuntime) (ev : APIGatewayProxyEvent) :
    parseClientRequest rt ev = normalizerSpec rt ev := by
  unfold parseClientRequest rawClientRequest normalizerSpec
  cases hb : truthy ev.body <;> cases h64 : ev.isBase64Encoded <;>
    cases hq : truthy ev.queryPrompt <;> simp [hb, h64, hq, Except.map]

/-- C5: every request leaving the Session Identity Assigner has a present,
non-empty sessionId (given that the generated identifier is non-empty, as
a UUID always is); an absent-or-empty caller sessionId is replaced by the
freshly generated identifier; and a caller-supplied sessionId abc reaches
the Backend Invoker exactly unchanged. -/
theorem claim_C5 :
    (∀ rt ev p, parseClientRequest rt ev = .ok p → rt.freshUUID ≠ "" →
       ∃ s, p.sessionId = some s ∧ s ≠ "")
    ∧ (∀ rt ev b pr sid, ev.body = some b → ev.isBase64Encoded = false →
        b ≠ "" → rt.jsonParse b = .ok { prompt := pr, sessionId := sid } →
        truthy sid = false →
        parseClientRequest rt ev =
          .ok { prompt := pr, sessionId := some rt.freshUUID })
    ∧ (∀ arn rt send wb ev b pr, ev.body = some b →
        ev.isBase64Encoded = false → b ≠ "" →
        rt.jsonParse b = .ok { prompt := pr, sessionId := some "abc" } →
        (handler arn rt send wb ev).filter Ev.isInvoke =
          [Ev.invoke { agentRuntimeArn := arn, runtimeSessionId := some "abc",
                       payload := stringifyPromptPayload pr,
                       qualifier := "DEFAULT" }]) := by
  refine ⟨?_, ?_, ?_⟩
  · intro rt ev p hp hu
    unfold parseClientRequest at hp
    cases hraw : rawClientRequest rt ev with
    | error e => rw [hraw] at hp; simp [Except.map] at hp
    | ok q =>
      rw [hraw] at hp
      simp only [Except.map, Except.ok.injEq] at hp
      exact hp ▸ assignSessionId_nonempty rt.freshUUID hu q
  · intro rt ev b pr sid hb h64 hne hjson htr
    rw [parse_body_direct rt ev b hb h64 hne, hjson]
    simp [Except.map, assignSessionId, htr]
  · intro arn rt send wb ev b pr hb h64 hne hjson
    have hp : parseClientRequest rt ev =
        .ok { prompt := pr, sessionId := some "abc" } := by
      rw [parse_body_direct rt ev b hb h64 hne, hjson]
      simp +decide [Except.map, assignSessionId, truthy]
    have h2 := handler_invoke_events arn rt send wb ev _ hp
    simpa [buildCommand] using h2

/-- C5 witness: the three parts applied to concrete runtimes — a parsed
request with sessionId abc, an empty-object body getting the generated
identifier, and the abc sessionId reaching the single backend
invocation. -/
theorem claim_C5_witness :
    (∃ s, ({ prompt := some "hello", sessionId := some "abc" } :
        ClientRequest).sessionId = some s ∧ s ≠ "")
    ∧ parseClientRequest rtEmptyObj evWithBody =
        .ok { prompt := none, sessionId := some "aaaa-bbbb" }
    ∧ (handler "arn:agent" rtPromptAbc sendUnused wbOk evWithBody).filter
        Ev.isInvoke =
      [Ev.invoke { agentRuntimeArn := "arn:agent",
                   runtimeSessionId := some "abc",
                   payload := stringifyPromptPayload (some "hello"),
                   qualifier := "DEFAULT" }] :=
  ⟨claim_C5.1 rtPromptAbc evWithBody
      { prompt := some "hello", sessionId := some "abc" } rfl (by decide),
   claim_C5.2.1 rtEmptyObj evWithBody "\x7b\x7d" none none rfl rfl
      (by decide) rfl rfl,
   claim_C5.2.2 "arn:agent" rtPromptAbc sendUnused wbOk evWithBody "\x7b\x7d"
      (some "hello") rfl rfl (by decide) rfl⟩

/-- C6: for every well-formed JSON body (plain or base64-marked) whose
prompt field is p, the backend is invoked exactly once, with the
configured target identity, the assigned session identifier, the fixed
qualifier DEFAULT, and the JSON-serialized payload of the object whose
prompt field is p. -/
theorem claim_C6 :
    (∀ arn rt send wb ev b p sid, ev.isBase64Encoded = false →
       ev.body = some b → b ≠ "" →
       rt.jsonParse b = .ok { prompt := some p, sessionId := sid } →
       (handler arn rt send wb ev).filter Ev.isInvoke =
         [Ev.invoke { agentRuntimeArn := arn,
                      runtimeSessionId := (assignSessionId rt.freshUUID
                        { prompt := some p, sessionId := sid }).sessionId,
                      payload := stringifyPromptPayload (some p),
                      qualifier := "DEFAULT" }])
    ∧ (∀ arn rt send wb ev b p sid, ev.isBase64Encoded = true →
       ev.body = some b → b ≠ "" →
       rt.jsonParse (rt.b64decode b) = .ok { prompt := some p, sessionId := sid } →
       (handler arn rt send wb ev).filter Ev.isInvoke =
         [Ev.invoke { agentRuntimeArn := arn,
                      runtimeSessionId := (assignSessionId rt.freshUUID
                        { prompt := some p, sessionId := sid }).sessionId,
                      payload := stringifyPromptPayload (some p),
                      qualifier := "DEFAULT" }]) := by
  constructor
  · intro arn rt send wb ev b p sid h64 hb hne hjson
    have hp : parseClientRequest rt ev =
        .ok (assignSessionId rt.freshUUID { prompt := some p, sessionId := sid }) := by
      rw [parse_body_direct rt ev b hb h64 hne, hjson]
      simp [Except.map]
    have h2 := handler_invoke_events arn rt send wb ev _ hp
    simpa [buildCommand, assignSessionId] using h2
  · intro arn rt send wb ev b p sid h64 hb hne hjson
    have hp : parseClientRequest rt ev =
        .ok (assignSessionId rt.freshUUID { prompt := some p, sessionId := sid }) := by
      rw [parse_body_b64 rt ev b hb h64 hne, hjson]
      simp [Except.map]
    have h2 := handler_invoke_events arn rt send wb ev _ hp
    simpa [buildCommand, assignSessionId] using h2

/-- C6 witness: a concrete well-formed body with prompt hello produces
exactly one invocation with the configured identity, the caller's session
id, qualifier DEFAULT and the serialized prompt payload. -/
theorem claim_C6_witness :
    (handler "arn:agent" rtPromptAbc sendUnused wbOk evWithBody).filter
        Ev.isInvoke =
      [Ev.invoke { agentRuntimeArn := "arn:agent",
                   runtimeSessionId := (assignSessionId "aaaa-bbbb"
                     { prompt := some "hello", sessionId := some "abc" }).sessionId,
                   payload := stringifyPromptPayload (some "hello"),
                   qualifier := "DEFAULT" }] :=
  claim_C6.1 "arn:agent" rtPromptAbc sendUnused wbOk evWithBody "\x7b\x7d"
    "hello" (some "abc") rfl rfl (by decide) rfl

/-- C7: for every backend stream that emits the chunks A, B, C in that
order and ends cleanly, the channel receives exactly A, then B, then C,
in order with nothing interleaved, and is closed exactly once, directly
after C. -/
theorem claim_C7 (arn : String) (rt : JsRuntime) (wb : WriteBehavior)
    (ev : APIGatewayProxyEvent) (p : ClientRequest)
    (hp : parseClientRequest rt ev = .ok p) :
    handler arn rt (fun _ => .ok { chunks := ["A", "B", "C"], outcome := none })
        wb ev =
      [Ev.openMeta 200 sseHeaders, Ev.invoke (buildCommand arn p),
       Ev.write "A", Ev.write "B", Ev.write "C", Ev.close] := by
  simp only [handler, handlerTry, hp, asyncPipeline]
  simp

/-- C7 witness: the trace for a concrete request. -/
theorem claim_C7_witness :
    handler "arn:agent" rtEmptyObj
        (fun _ => .ok { chunks := ["A", "B", "C"], outcome := none })
        wbOk evBare =
      [Ev.openMeta 200 sseHeaders,
       Ev.invoke (buildCommand "arn:agent"
         { prompt := some defaultPrompt, sessionId := some "aaaa-bbbb" }),
       Ev.write "A", Ev.write "B", Ev.write "C", Ev.close] :=
  claim_C7 "arn:agent" rtEmptyObj wbOk evBare
    { prompt := some defaultPrompt, sessionId := some "aaaa-bbbb" } rfl

/-- A list followed by a block ending in a close has the close as its last
element. -/
theorem getLast?_append_close (l1 l2 : List Ev) :
    (l1 ++ (l2 ++ [Ev.close])).getLast? = some Ev.close := by
  rw [← List.append_assoc]
  exact List.getLast?_concat _

/-- C8: a failure while the reporter writes its diagnostic frames is
swallowed — when the first write throws nothing is written and when the
second write throws the first frame stands — and the close is attempted
unconditionally afterwards; in every scenario whatsoever the handler
terminates normally with the close as the final action on the channel. -/
theorem claim_C8 (arn : String) (rt : JsRuntime)
    (send : InvokeAgentRuntimeCommand → Except JsError BackendStream)
    (wb : WriteBehavior) (ev : APIGatewayProxyEvent) (e : JsError) :
    (wb.firstWriteOk = false → reportAndClose e wb = [Ev.close])
    ∧ (wb.firstWriteOk = true → wb.secondWriteOk = false → e.isError = true →
        reportAndClose e wb =
          [Ev.write (errorFrame "Internal server error"), Ev.close])
    ∧ (handler arn rt send wb ev).getLast? = some Ev.close := by
  refine ⟨?_, ?_, ?_⟩
  · intro h1
    simp [reportAndClose, reportFrames, h1]
  · intro h1 h2 h3
    simp [reportAndClose, reportFrames, h1, h2, h3]
  · unfold handler handlerTry
    cases hp : parseClientRequest rt ev with
    | error e2 =>
      simp only [hp]
      unfold reportAndClose
      exact getLast?_append_close _ _
    | ok p =>
      cases hs : send (buildCommand arn p) with
      | error e2 =>
        simp only [hp, hs]
        unfold reportAndClose
        exact getLast?_append_close _ _
      | ok stream =>
        unfold asyncPipeline
        cases ho : stream.outcome with
        | none =>
          simp only [hp, hs, ho]
          exact getLast?_append_close _ _
        | some e2 =>
          simp only [hp, hs, ho]
          unfold reportAndClose
          exact getLast?_append_close _ _

/-- C8 witness: the three parts at concrete scenarios — first write
throwing, second write throwing, and a full handler run with both writes
throwing. -/
theorem claim_C8_witness :
    (reportAndClose { isError := true, message := "boom" }
        { firstWriteOk := false, secondWriteOk := true } = [Ev.close])
    ∧ (reportAndClose { isError := true, message := "boom" }
        { firstWriteOk := true, secondWriteOk := false } =
        [Ev.write (errorFrame "Internal server error"), Ev.close])
    ∧ (handler "arn:agent" rtReject sendUnused
        { firstWriteOk := false, secondWriteOk := false } evNotJson).getLast? =
      some Ev.close :=
  ⟨(claim_C8 "arn:agent" rtReject sendUnused
      { firstWriteOk := false, secondWriteOk := true } evNotJson
      { isError := true, message := "boom" }).1 rfl,
   (claim_C8 "arn:agent" rtReject sendUnused
      { firstWriteOk := true, secondWriteOk := false } evNotJson
      { isError := true, message := "boom" }).2.1 rfl rfl rfl,
   (claim_C8 "arn:agent" rtReject sendUnused
      { firstWriteOk := false, secondWriteOk := false } evNotJson
      { isError := true, message := "boom" }).2.2⟩

/-- C9: module initialization requires exactly the backend target
identity: an absent (or empty, equally falsy) AGENT_ARN is a fatal module
load error regardless of the rest of the environment and independent of
any event, while any non-empty AGENT_ARN initializes successfully, the
optional AWS_REGION merely selecting the region default. -/
theorem claim_C9 (regionEnv : Option String) :
    initModule none regionEnv =
      .error { isError := true,
               message := "AGENT_ARN must be set in environment variables" }
    ∧ initModule (some "") regionEnv =
      .error { isError := true,
               message := "AGENT_ARN must be set in environment variables" }
    ∧ (∀ a, a ≠ "" → initModule (some a) regionEnv =
        .ok { agentCoreArn := a, region := regionOf regionEnv }) := by
  refine ⟨by simp [initModule, truthy], by simp +decide [initModule, truthy], ?_⟩
  intro a ha
  simp [initModule, truthy_some ha]

/-- C9 witness: the three parts at a concrete environment. -/
theorem claim_C9_witness :
    initModule none none =
      .error { isError := true,
               message := "AGENT_ARN must be set in environment variables" }
    ∧ initModule (some "") none =
      .error { isError := true,
               message := "AGENT_ARN must be set in environment variables" }
    ∧ initModule (some "arn:aws:bedrock") none =
      .ok { agentCoreArn := "arn:aws:bedrock", region := regionOf none } :=
  ⟨(claim_C9 none).1, (claim_C9 none).2.1,
   (claim_C9 none).2.2 "arn:aws:bedrock" (by decide)⟩

/-- C10: a syntactically valid JSON body lacking a prompt field does not
fail and does not fall through to the query-parameter or default shapes:
the Normalizer returns a record whose prompt is absent, and the backend
is invoked with the serialized payload of the empty object (the undefined
prompt is dropped by JSON.stringify). -/
theorem claim_C10 (arn : String) (rt : JsRuntime)
    (send : InvokeAgentRuntimeCommand → Except JsError BackendStream)
    (wb : WriteBehavior) (ev : APIGatewayProxyEvent) (b : String)
    (sid : Option String) (h64 : ev.isBase64Encoded = false)
    (hb : ev.body = some b) (hne : b ≠ "")
    (hjson : rt.jsonParse b = .ok { prompt := none, sessionId := sid }) :
    parseClientRequest rt ev =
      .ok { prompt := none,
            sessionId := (assignSessionId rt.freshUUID
              { prompt := none, sessionId := sid }).sessionId }
    ∧ stringifyPromptPayload none = "\x7b\x7d"
    ∧ (handler arn rt send wb ev).filter Ev.isInvoke =
        [Ev.invoke { agentRuntimeArn := arn,
                     runtimeSessionId := (assignSessionId rt.freshUUID
                       { prompt := none, sessionId := sid }).sessionId,
                     payload := "\x7b\x7d", qualifier := "DEFAULT" }] := by
  have hp : parseClientRequest rt ev =
      .ok (assignSessionId rt.freshUUID { prompt := none, sessionId := sid }) := by
    rw [parse_body_direct rt ev b hb h64 hne, hjson]
    simp [Except.map]
  refine ⟨?_, rfl, ?_⟩
  · rw [hp]
    simp [assignSessionId]
  · have h2 := handler_invoke_events arn rt send wb ev _ hp
    simpa [buildCommand, assignSessionId, stringifyPromptPayload] using h2

/-- An event with both a body and a prompt query parameter, showing the
body shape wins. -/
def evBodyAndQuery : APIGatewayProxyEvent :=
  { body := some "\x7b\x7d", isBase64Encoded := false,
    queryPrompt := some "other", querySessionId := none }

/-- C10 witness: the empty-object body at a concrete event that also
carries a query prompt, which is ignored. -/
theorem claim_C10_witness :
    parseClientRequest rtEmptyObj evBodyAndQuery =
      .ok { prompt := none,
            sessionId := (assignSessionId "aaaa-bbbb"
              { prompt := none, sessionId := none }).sessionId }
    ∧ stringifyPromptPayload none = "\x7b\x7d"
    ∧ (handler "arn:agent" rtEmptyObj sendUnused wbOk evBodyAndQuery).filter
        Ev.isInvoke =
      [Ev.invoke { agentRuntimeArn := "arn:agent",
                   runtimeSessionId := (assignSessionId "aaaa-bbbb"
                     { prompt := none, sessionId := none }).sessionId,
                   payload := "\x7b\x7d", qualifier := "DEFAULT" }] :=
  claim_C10 "arn:agent" rtEmptyObj sendUnused wbOk evBodyAndQuery "\x7b\x7d"
    none rfl rfl (by decide) rfl

end AgentCoreProxy
